import Mathlib

/-!
Shallow embedding of the `vss-client` request pipeline
(`src/client.rs`, `src/headers/sigs_auth.rs`) in Lean 4.

Bytes are modelled as `Nat` values (< 256 for real byte strings), byte
strings as `List Nat`, and Rust `String`s either as Lean `String` or as
their character list `List Char`.  Fallible Rust code (`Result`, panics)
is modelled with `Except`.  External collaborators (the secp256k1
library, SHA-256, the prost decoder, the bitreq transport) are
parameters of the definitions: the repository only composes them, and
the theorems below are about that composition.
-/

namespace VssClientModel

/-! ## Hexadecimal and decimal encoders

`{:02x}` formatting of a byte and `{n}` formatting of a `u64`,
as used by `build_token` in `src/headers/sigs_auth.rs`. -/

/-- The lowercase hex digit for a value `n < 16` (as produced by Rust's
`{:x}`/`{:02x}` formatting). -/
def hexDigitChar (n : Nat) : Char :=
  if n < 10 then Char.ofNat (48 + n) else Char.ofNat (87 + n)

/-- `{:02x}` formatting of one byte: two lowercase hex digits. -/
def hexByte (b : Nat) : List Char :=
  [hexDigitChar (b / 16), hexDigitChar (b % 16)]

/-- Lowercase hex encoding of a byte string, byte by byte — the encoding
used both by `{pubkey:x}` (bitcoin's `LowerHex` for a compressed public
key) and by the per-byte `{:02x}` loop over the compact signature. -/
def hexBytes (bs : List Nat) : List Char :=
  (bs.map hexByte).flatten

theorem hexBytes_length (bs : List Nat) : (hexBytes bs).length = 2 * bs.length := by
  induction bs with
  | nil => rfl
  | cons b bs ih =>
    simp [hexBytes, List.flatten, hexByte] at ih ⊢
    omega

theorem hexBytes_append (a b : List Nat) :
    hexBytes (a ++ b) = hexBytes a ++ hexBytes b := by
  simp [hexBytes]

/-- Auxiliary loop for decimal formatting: prepends the decimal digits of
`n` (most significant first) to `acc`; for `n = 0` it prepends nothing. -/
def decCharsAux : Nat → List Char → List Char
  | n, acc =>
    if h : n = 0 then acc
    else decCharsAux (n / 10) (Char.ofNat (48 + n % 10) :: acc)
  termination_by n _ => n
  decreasing_by exact Nat.div_lt_self (Nat.pos_of_ne_zero h) (by decide)

/-- The decimal ASCII representation of a natural number, as produced by
Rust's `{n}` formatting of an unsigned integer: the usual base-10 digits,
most significant first, with `0` rendered as `"0"`. -/
def decChars (n : Nat) : List Char :=
  if n = 0 then [Char.ofNat 48] else decCharsAux n []

/-- The decimal ASCII digits of `n` as raw bytes (what `write!(stream,
"{now}")` appends to the byte buffer). -/
def decBytes (n : Nat) : List Nat :=
  (decChars n).map Char.toNat

theorem decCharsAux_length :
    ∀ (k n : Nat) (acc : List Char), n < 10 ^ k →
      (decCharsAux n acc).length ≤ k + acc.length := by
  intro k
  induction k with
  | zero =>
    intro n acc h
    have hn : n = 0 := by omega
    subst hn
    rw [decCharsAux]
    simp
  | succ k ih =>
    intro n acc h
    rw [decCharsAux]
    by_cases hn : n = 0
    · simp [hn]
    · simp [hn]
      have hdiv : n / 10 < 10 ^ k := by
        have hlt : n < 10 ^ k * 10 := by
          calc n < 10 ^ (k + 1) := h
          _ = 10 ^ k * 10 := by ring
        omega
      have := ih (n / 10) (Char.ofNat (48 + n % 10) :: acc) hdiv
      simp at this
      omega

/-- A `u64` value prints as at most 20 decimal digits. -/
theorem decChars_length_le (n : Nat) (h : n < 2 ^ 64) :
    (decChars n).length ≤ 20 := by
  unfold decChars
  by_cases hn : n = 0
  · simp [hn]
  · simp [hn]
    have h20 : n < 10 ^ 20 := by
      calc n < 2 ^ 64 := h
      _ ≤ 10 ^ 20 := by norm_num
    have := decCharsAux_length 20 n [] h20
    simpa using this

theorem decBytes_length_le (n : Nat) (h : n < 2 ^ 64) :
    (decBytes n).length ≤ 20 := by
  unfold decBytes
  simpa using decChars_length_le n h

/-! ## Constants from `src/client.rs` and `src/headers/sigs_auth.rs` -/

def APPLICATION_OCTET_STREAM : String := "application/octet-stream"

def CONTENT_TYPE : String := "content-type"

def DEFAULT_TIMEOUT_SECS : Nat := 10

def MAX_RESPONSE_BODY_SIZE : Nat := 1024 * 1024 * 1024

/-- The 64-byte salt constant of `src/headers/sigs_auth.rs`, as its byte
values (the Rust source writes it as the ASCII byte string
`b"VSS Signature Authorizer Signing Salt Constant.................."`). -/
def SIGNING_CONSTANT : List Nat :=
  ("VSS Signature Authorizer Signing Salt Constant..................").toList.map Char.toNat

theorem SIGNING_CONSTANT_length : SIGNING_CONSTANT.length = 64 := by decide

/-! ## The error type

Modelled from the spec: `VssError` lives in `src/error.rs`, which is not
among the provided sources; only its use sites in `src/client.rs` are.
The spec's error taxonomy (§7) lists: an authentication error (header
provider failure), a transport error, a status-coded application error
"carrying status code and raw payload verbatim", a decode error for a
2xx body that fails to parse, and the protocol-contract violation, which
`src/client.rs` line 93 shows is raised as `VssError::InternalServerError`
with a fixed message. -/

/-- Modelled from the spec: the typed error taxonomy of `src/error.rs`
(not under `src/`). `AppError` is the status-coded application error
carrying the non-2xx status code and raw response payload verbatim. -/
inductive VssError where
  | AuthError (msg : String)
  | TransportError (msg : String)
  | AppError (statusCode : Nat) (payload : List Nat)
  | DecodeError (msg : String)
  | InternalServerError (msg : String)
  deriving DecidableEq, Repr

/-- Modelled from the spec: `VssError::new(status_code, payload)` wraps a
non-2xx response "into a typed error carrying the status code and raw
response payload for diagnostics" (spec §4.1 step 4, §7). -/
def VssError.new (statusCode : Nat) (payload : List Nat) : VssError :=
  VssError.AppError statusCode payload

/-- The fixed message of the get-path protocol-contract violation,
`src/client.rs` line 94. -/
def protocolViolationMsg : String :=
  "VSS Server API Violation, expected value in GetObjectResponse but found none"

/-! ## Wire types

The prost-generated request/response records live in `src/types.rs`,
which is not among the provided sources; the pipeline only touches the
`value` field of `GetObjectResponse` (spec §3: a get response carries
one `KeyValue` item, and its absence is a protocol violation). -/

structure KeyValue where
  key : String
  version : Int
  value : List Nat
  deriving DecidableEq, Repr

/-- Modelled from the spec: `GetObjectResponse` (from `src/types.rs`,
not under `src/`) carries an optional `value : KeyValue`; `src/client.rs`
line 92 reads `response.value.is_none()`. -/
structure GetObjectResponse where
  value : Option KeyValue
  deriving DecidableEq, Repr

/-! ## The transport request description

`bitreq` is an external collaborator; its request-builder calls used in
`post_request` (`bitreq::post`, `with_header`, `with_headers`,
`with_body`, `with_timeout`, `with_max_body_size`, `with_pipelining`)
are modelled as record constructions/updates on the request description
the transport contract of spec §6 receives. -/

inductive HttpMethod where
  | POST
  deriving DecidableEq, Repr

structure HttpRequest where
  method : HttpMethod
  url : String
  headers : List (String × String)
  body : List Nat
  timeoutSecs : Option Nat
  maxBodySize : Option Nat
  pipelining : Bool
  deriving DecidableEq, Repr

/-- `bitreq::post(url)`: a fresh POST request description. -/
def bitreqPost (url : String) : HttpRequest :=
  { method := HttpMethod.POST, url := url, headers := [], body := [],
    timeoutSecs := none, maxBodySize := none, pipelining := false }

def HttpRequest.with_header (r : HttpRequest) (k v : String) : HttpRequest :=
  { r with headers := r.headers ++ [(k, v)] }

def HttpRequest.with_headers (r : HttpRequest) (hs : List (String × String)) : HttpRequest :=
  { r with headers := r.headers ++ hs }

def HttpRequest.with_body (r : HttpRequest) (b : List Nat) : HttpRequest :=
  { r with body := b }

def HttpRequest.with_timeout (r : HttpRequest) (t : Nat) : HttpRequest :=
  { r with timeoutSecs := some t }

def HttpRequest.with_max_body_size (r : HttpRequest) (s : Option Nat) : HttpRequest :=
  { r with maxBodySize := s }

def HttpRequest.with_pipelining (r : HttpRequest) : HttpRequest :=
  { r with pipelining := true }

/-- The request built by `VssClient::post_request` (`src/client.rs`
lines 203–212): POST to `url`, content-type header, then the
provider-supplied headers, the serialized body, the default timeout, the
maximum response body size, and the pipelining hint iff
`enable_pipelining`. -/
def post_request_build (url : String) (request_body : List Nat)
    (headers : List (String × String)) (enable_pipelining : Bool) : HttpRequest :=
  let http_request :=
    ((((bitreqPost url).with_header CONTENT_TYPE APPLICATION_OCTET_STREAM).with_headers
        headers).with_body request_body).with_timeout DEFAULT_TIMEOUT_SECS
      |>.with_max_body_size (some MAX_RESPONSE_BODY_SIZE)
  if enable_pipelining then http_request.with_pipelining else http_request

/-! ## `VssClient::post_request`

`src/client.rs` lines 193–225.  The external pieces are parameters:
`headers` is the header provider's outcome for the serialized body
(`Err` carries the provider error's display string), `transport` is
`bitreq::Client::send_async` (returning a status code and response
bytes, or a transport error), `decode` is `Rs::decode` from prost.  The
`?` conversions into `VssError` (`From` impls in the missing
`src/error.rs`) are modelled from the spec's taxonomy (§7): transport
errors and decode errors get their own variants. -/

def post_request {Rs : Type} (request_body : List Nat)
    (headers : Except String (List (String × String)))
    (transport : HttpRequest → Except String (Nat × List Nat))
    (decode : List Nat → Except String Rs)
    (url : String) (enable_pipelining : Bool) : Except VssError Rs :=
  match headers with
  | Except.error e => Except.error (VssError.AuthError e)
  | Except.ok hs =>
    let http_request := post_request_build url request_body hs enable_pipelining
    match transport http_request with
    | Except.error e => Except.error (VssError.TransportError e)
    | Except.ok (status_code, payload) =>
      if 200 ≤ status_code ∧ status_code < 300 then
        match decode payload with
        | Except.ok response => Except.ok response
        | Except.error e => Except.error (VssError.DecodeError e)
      else
        Except.error (VssError.new status_code payload)

/-! ## The retry loop

Modelled from the spec: `retry` and `RetryPolicy` live in
`src/util/retry.rs`, which is not among the provided sources.  Spec §4.4:
"given an attempt closure producing a result, execute it, and if it
fails, consult policy state to decide whether to attempt again (and
after what delay) or give up and return the last failure. The policy is
generic over one error type so that error classification … is
centralized".  The policy is modelled as the classification function
`pol : E → Nat → Bool` ("retry this error, seen after this many
attempts?"); delays are irrelevant to the properties below and are
dropped.  `fuel` bounds the number of *re*-attempts so the loop is a
total function; the theorems quantify over it.  The attempt closure is
indexed by the attempt number so that attempt outcomes may differ across
attempts (the transport and the header provider may behave differently
each time).  The loop also reports how many attempts were executed. -/

def retryAux {E A : Type} (attempt : Nat → Except E A) (pol : E → Nat → Bool) :
    Nat → Nat → Except E A × Nat
  | fuel, i =>
    match attempt i with
    | Except.ok a => (Except.ok a, i + 1)
    | Except.error e =>
      match fuel with
      | 0 => (Except.error e, i + 1)
      | fuel' + 1 =>
        if pol e i then retryAux attempt pol fuel' (i + 1)
        else (Except.error e, i + 1)

/-- Modelled from the spec: the governed retry loop of
`src/util/retry.rs` (spec §4.4). Returns the final outcome. -/
def retry {E A : Type} (attempt : Nat → Except E A) (pol : E → Nat → Bool)
    (fuel : Nat) : Except E A :=
  (retryAux attempt pol fuel 0).1

/-- Modelled from the spec: the number of attempts the retry loop
executes (1 for the initial attempt, plus one per granted retry). -/
def retryAttempts {E A : Type} (attempt : Nat → Except E A) (pol : E → Nat → Bool)
    (fuel : Nat) : Nat :=
  (retryAux attempt pol fuel 0).2

/-- Every success produced by the retry loop is a success produced by
some attempt. -/
theorem retry_ok_from_attempt {E A : Type} (attempt : Nat → Except E A)
    (pol : E → Nat → Bool) :
    ∀ (fuel i : Nat) (a : A), (retryAux attempt pol fuel i).1 = Except.ok a →
      ∃ j, attempt j = Except.ok a := by
  intro fuel
  induction fuel with
  | zero =>
    intro i a h
    rw [retryAux] at h
    cases hc : attempt i with
    | ok b =>
      rw [hc] at h
      simp at h
      exact ⟨i, by rw [hc, h]⟩
    | error e => rw [hc] at h; simp at h
  | succ fuel ih =>
    intro i a h
    rw [retryAux] at h
    cases hc : attempt i with
    | ok b =>
      rw [hc] at h
      simp at h
      exact ⟨i, by rw [hc, h]⟩
    | error e =>
      rw [hc] at h
      by_cases hp : pol e i
      · simp [hp] at h
        exact ih (i + 1) a h
      · simp [hp] at h

/-- Every failure surfaced by the retry loop is the failure produced by
some attempt. -/
theorem retry_error_from_attempt {E A : Type} (attempt : Nat → Except E A)
    (pol : E → Nat → Bool) :
    ∀ (fuel i : Nat) (e : E), (retryAux attempt pol fuel i).1 = Except.error e →
      ∃ j, attempt j = Except.error e := by
  intro fuel
  induction fuel with
  | zero =>
    intro i e h
    rw [retryAux] at h
    cases hc : attempt i with
    | ok b => rw [hc] at h; simp at h
    | error e' =>
      rw [hc] at h
      simp at h
      exact ⟨i, by rw [hc, h]⟩
  | succ fuel ih =>
    intro i e h
    rw [retryAux] at h
    cases hc : attempt i with
    | ok b => rw [hc] at h; simp at h
    | error e' =>
      rw [hc] at h
      by_cases hp : pol e' i
      · simp [hp] at h
        exact ih (i + 1) e h
      · simp [hp] at h
        exact ⟨i, by rw [hc, h]⟩

/-! ## The four public operations

`src/client.rs` lines 82–191.  Each operation's retry closure formats
its fixed path onto the base URL and calls `post_request` with a literal
pipelining flag: `get_object` → `"/getObject"`, `true` (lines 89–90);
`put_object` → `"/putObjects"`, `false` (lines 127–128); `delete_object`
→ `"/deleteObject"`, `true` (lines 153–154); `list_key_versions` →
`"/listKeyVersions"`, `true` (lines 181–182). -/

inductive Operation where
  | get
  | put
  | delete
  | list
  deriving DecidableEq, Repr

/-- The URL each operation's closure builds
(`format!("{}/getObject", self.base_url)` and its three siblings). -/
def operation_url (base_url : String) : Operation → String
  | Operation.get => base_url ++ "/getObject"
  | Operation.put => base_url ++ "/putObjects"
  | Operation.delete => base_url ++ "/deleteObject"
  | Operation.list => base_url ++ "/listKeyVersions"

/-- The literal `enable_pipelining` argument each operation's closure
passes to `post_request` (`src/client.rs` lines 90, 128, 154, 182). -/
def operation_enable_pipelining : Operation → Bool
  | Operation.get => true
  | Operation.put => false
  | Operation.delete => true
  | Operation.list => true

/-- The request description an operation's attempt closure hands to the
transport at attempt number `i`, given that attempt's provider headers.
The closure re-invoked by the retry loop is syntactically the same each
time (it does not read the attempt count), so `i` is unused — exactly as
in the source. -/
def operation_attempt_request (op : Operation) (base_url : String)
    (request_body : List Nat) (headers : List (String × String)) (_i : Nat) :
    HttpRequest :=
  post_request_build (operation_url base_url op) request_body headers
    (operation_enable_pipelining op)

/-- Stated from the spec (§4.1 step 3): the transport pipelining hint as
a function of the operation type alone — "enabled for get, delete, and
list …, disabled for put". To be compared against what the source
builds. -/
def spec_pipelining_hint : Operation → Bool
  | Operation.get => true
  | Operation.put => false
  | Operation.delete => true
  | Operation.list => true

/-- Stated from the spec (§6): the wire endpoint path of each operation,
to be compared against the URLs the source formats. -/
def spec_operation_path : Operation → String
  | Operation.get => "/getObject"
  | Operation.put => "/putObjects"
  | Operation.delete => "/deleteObject"
  | Operation.list => "/listKeyVersions"

/-- One attempt of `get_object` (`src/client.rs` lines 88–101): call
`post_request` on `{base}/getObject` with pipelining enabled, then
`and_then` the check that the decoded response has a value, raising
`VssError::InternalServerError` with the fixed protocol-violation
message when it does not. -/
def get_object_attempt (base_url : String) (request_body : List Nat)
    (headers : Except String (List (String × String)))
    (transport : HttpRequest → Except String (Nat × List Nat))
    (decode : List Nat → Except String GetObjectResponse) :
    Except VssError GetObjectResponse :=
  let url := base_url ++ "/getObject"
  (post_request request_body headers transport decode url true).bind
    (fun response =>
      if response.value.isNone then
        Except.error (VssError.InternalServerError protocolViolationMsg)
      else
        Except.ok response)

/-- `VssClient::get_object` (`src/client.rs` lines 82–109): the attempt
closure run under the governed retry loop.  `headerses i` and
`transports i` are the header provider's and the transport's behaviour
at attempt `i` (both may differ between attempts). -/
def get_object (base_url : String) (request_body : List Nat)
    (headerses : Nat → Except String (List (String × String)))
    (transports : Nat → HttpRequest → Except String (Nat × List Nat))
    (decode : List Nat → Except String GetObjectResponse)
    (pol : VssError → Nat → Bool) (fuel : Nat) : Except VssError GetObjectResponse :=
  retry
    (fun i => get_object_attempt base_url request_body (headerses i) (transports i) decode)
    pol fuel

/-- The number of attempts the retry loop executes for a `get_object`
call (1 + granted retries). -/
def get_object_attempts_made (base_url : String) (request_body : List Nat)
    (headerses : Nat → Except String (List (String × String)))
    (transports : Nat → HttpRequest → Except String (Nat × List Nat))
    (decode : List Nat → Except String GetObjectResponse)
    (pol : VssError → Nat → Bool) (fuel : Nat) : Nat :=
  retryAttempts
    (fun i => get_object_attempt base_url request_body (headerses i) (transports i) decode)
    pol fuel

/-! ## `SigsAuthProvider` (`src/headers/sigs_auth.rs`)

The secp256k1 and SHA-256 primitives are external (the `bitcoin` crate);
they are parameters collected in `Crypto`.  `verify_ecdsa` is not called
by the source but is needed to state the verification property the spec
promises of the emitted signatures. -/

structure Crypto (SK : Type) where
  /-- `secret_key.public_key(secp_ctx).serialize()`: the 33-byte
  compressed serialization of the derived public key. -/
  publicKeySer : SK → List Nat
  /-- SHA-256 of a byte string (`Sha256::hash(..).to_byte_array()`). -/
  sha256 : List Nat → List Nat
  /-- `secp_ctx.sign_ecdsa(digest, secret_key).serialize_compact()`:
  the 64-byte compact ECDSA signature over a 32-byte digest. -/
  sign_ecdsa : List Nat → SK → List Nat
  /-- ECDSA verification of a compact signature against a serialized
  public key and a digest (external; used only in statements). -/
  verify_ecdsa : List Nat → List Nat → List Nat → Bool

/-- A cursor into a fixed byte buffer, modelling sequential
`std::io::Write` into `&mut [u8]`: `capacity` is the buffer length and
`written` the bytes written so far (writes start at the front and are
never overwritten). -/
structure SliceWriter where
  capacity : Nat
  written : List Nat
  deriving DecidableEq, Repr

/-- `stream.write_all(bs)` on a `&mut [u8]` cursor: succeeds exactly
when `bs` fits in the remaining space, else errors (and the caller's
`.unwrap()` turns that into a panic). -/
def SliceWriter.write_all (w : SliceWriter) (bs : List Nat) : Except String SliceWriter :=
  if w.written.length + bs.length ≤ w.capacity then
    Except.ok { w with written := w.written ++ bs }
  else
    Except.error "failed to write whole buffer"

/-- `build_token` (`src/headers/sigs_auth.rs` lines 18–41), with the
clock already read: derive the public key, write the salt, the
compressed public key and the decimal digits of `now` into a fixed
buffer of `SIGNING_CONSTANT.len() + 33 + 20` bytes, SHA-256 the written
prefix, sign the digest, and emit hex(pubkey) ++ hex(compact sig) ++
decimal(now).  The `Except.error` results model the panics of the
`.unwrap()` calls on the buffer writes; the token is returned as its
character list. -/
def build_token {SK : Type} (C : Crypto SK) (secret_key : SK) (now : Nat) :
    Except String (List Char) := do
  let pubkey := C.publicKeySer secret_key
  let buffer : SliceWriter := ⟨SIGNING_CONSTANT.length + 33 + 20, []⟩
  let s1 ← buffer.write_all SIGNING_CONSTANT
  let s2 ← s1.write_all pubkey
  let s3 ← s2.write_all (decBytes now)
  let bytes_to_sign := s3.written
  let hash := C.sha256 bytes_to_sign
  let sig := C.sign_ecdsa hash secret_key
  pure (hexBytes pubkey ++ hexBytes sig ++ decChars now)

/-- `HashMap::insert` modelled on association lists with first-match
lookup semantics: the new binding shadows and replaces any existing
binding of the same key. -/
def hashMapInsert (m : List (String × String)) (k v : String) :
    List (String × String) :=
  (k, v) :: m.filter (fun p => p.1 ≠ k)

theorem hashMapInsert_lookup_self (m : List (String × String)) (k v : String) :
    (hashMapInsert m k v).lookup k = some v := by
  simp [hashMapInsert, List.lookup]

theorem lookup_filter_ne (k k' : String) (h : k' ≠ k) :
    ∀ m : List (String × String),
      (m.filter (fun p => p.1 ≠ k)).lookup k' = m.lookup k' := by
  intro m
  induction m with
  | nil => rfl
  | cons p m ih =>
    simp only [ne_eq, decide_not] at ih
    rcases p with ⟨a, b⟩
    by_cases hp : a = k
    · have hb : (k' == k) = false := by simp [h]
      simp [List.filter_cons, hp, List.lookup_cons, hb, ih]
    · simp [List.filter_cons, hp, List.lookup_cons, ih]

theorem hashMapInsert_lookup_other (m : List (String × String)) (k v k' : String)
    (h : k' ≠ k) : (hashMapInsert m k v).lookup k' = m.lookup k' := by
  have hk' : (k' == k) = false := by simp [h]
  have hf := lookup_filter_ne k k' h m
  simp only [ne_eq, decide_not] at hf
  simp [hashMapInsert, List.lookup_cons, hk', hf]

/-- `SigsAuthProvider::get_headers` (`src/headers/sigs_auth.rs`
lines 69–77), with the provider's fields (`key`, `default_headers`) and
the clock reading as arguments.  `clock = none` models
`SystemTime::now()` before the Unix epoch, in which case the `.expect`
in `build_token` panics; `clock = some now` supplies
`duration_since(UNIX_EPOCH).as_secs()`.  The outer `Except String`
models panics, the inner `Except String` the returned
`Result<HashMap, VssHeaderProviderError>`. -/
def get_headers {SK : Type} (C : Crypto SK) (key : SK)
    (default_headers : List (String × String)) (clock : Option Nat) :
    Except String (Except String (List (String × String))) :=
  match clock with
  | none => Except.error "System time must be at least Jan 1, 1970"
  | some now =>
    match build_token C key now with
    | Except.error e => Except.error e
    | Except.ok token =>
      Except.ok (Except.ok (hashMapInsert default_headers "Authorization" (String.mk token)))

/-! ## Evaluation lemmas -/

/-- The digest `build_token` signs: SHA-256 of salt ++ compressed public
key ++ decimal ASCII timestamp. -/
def signed_digest {SK : Type} (C : Crypto SK) (secret_key : SK) (now : Nat) : List Nat :=
  C.sha256 (SIGNING_CONSTANT ++ C.publicKeySer secret_key ++ decBytes now)

/-- With a 33-byte public key and a `u64` timestamp, all buffer writes in
`build_token` succeed and the token is
hex(pubkey) ++ hex(sig over the signed digest) ++ decimal(now). -/
theorem build_token_eq {SK : Type} (C : Crypto SK) (secret_key : SK) (now : Nat)
    (hpk : (C.publicKeySer secret_key).length = 33) (hnow : now < 2 ^ 64) :
    build_token C secret_key now =
      Except.ok (hexBytes (C.publicKeySer secret_key) ++
        hexBytes (C.sign_ecdsa
          (C.sha256 (SIGNING_CONSTANT ++ C.publicKeySer secret_key ++ decBytes now))
          secret_key) ++
        decChars now) := by
  have hd : (decBytes now).length ≤ 20 := decBytes_length_le now hnow
  have hcond : 97 + (decBytes now).length ≤ 117 := by omega
  simp [build_token, SliceWriter.write_all, bind, Except.bind, pure, Except.pure,
    List.length_append, SIGNING_CONSTANT_length, hpk, hcond, List.append_assoc]

/-- A successful `get_object` attempt always carries a value: the
`and_then` check converts a value-less decoded response into an error
before the retry loop ever sees it. -/
theorem get_object_attempt_ok_value_isSome (base_url : String) (request_body : List Nat)
    (headers : Except String (List (String × String)))
    (transport : HttpRequest → Except String (Nat × List Nat))
    (decode : List Nat → Except String GetObjectResponse)
    (response : GetObjectResponse)
    (h : get_object_attempt base_url request_body headers transport decode =
      Except.ok response) : response.value.isSome := by
  simp only [get_object_attempt] at h
  cases hp : post_request request_body headers transport decode (base_url ++ "/getObject") true with
  | error e => rw [hp] at h; simp [Except.bind] at h
  | ok resp =>
    rw [hp] at h
    simp only [Except.bind] at h
    cases hv : resp.value with
    | none => simp [Except.bind, hv] at h
    | some kv =>
      simp [Except.bind, hv] at h
      rw [← h, hv]
      rfl

/-! ## Concrete instances for closed evaluations -/

def sampleKV : KeyValue := ⟨"k1", 1, [42]⟩

/-- A concrete stand-in for the prost decoder: payload `[0]` decodes to a
value-less response, anything else to a response carrying `sampleKV`. -/
def sampleDecode : List Nat → Except String GetObjectResponse :=
  fun payload => if payload = [0] then Except.ok ⟨none⟩ else Except.ok ⟨some sampleKV⟩

def sampleHeaderses : Nat → Except String (List (String × String)) :=
  fun _ => Except.ok [("x-test", "1")]

/-- A mock transport that answers 200 with a value-less payload on the
first attempt and 200 with a value-carrying payload on later attempts. -/
def sampleTransports : Nat → HttpRequest → Except String (Nat × List Nat) :=
  fun i _ => if i = 0 then Except.ok (200, [0]) else Except.ok (200, [1])

/-- A retry policy classifying every error as retryable. -/
def alwaysRetryPol : VssError → Nat → Bool := fun _ _ => true

/-- A retry policy classifying every error as terminal. -/
def neverRetryPol : VssError → Nat → Bool := fun _ _ => false

/-- Degenerate instantiations of the external crypto primitives, used
only to evaluate the pipeline on closed inputs (the identity as the
hash, constant byte strings of the right lengths as key and signature,
and a verifier that accepts). -/
def toyCrypto : Crypto Nat where
  publicKeySer := fun _ => List.replicate 33 2
  sha256 := fun bs => bs
  sign_ecdsa := fun _ _ => List.replicate 64 1
  verify_ecdsa := fun _ _ _ => true

/-! ## The claims -/

/-- C1: for every `get_object` call, a 2xx response whose decoded
`GetObjectResponse` lacks a value is never returned to the caller as
success: (a) every successful result carries a value, whatever the retry
policy decides about 2xx outcomes; (b) an attempt whose transport
returns a 2xx status and whose body decodes to a value-less response
produces exactly the protocol-violation `InternalServerError`; (c) every
error the call surfaces is an error some attempt produced. -/
theorem C1_get_missing_value_never_success (base_url : String) (request_body : List Nat)
    (headerses : Nat → Except String (List (String × String)))
    (transports : Nat → HttpRequest → Except String (Nat × List Nat))
    (decode : List Nat → Except String GetObjectResponse)
    (pol : VssError → Nat → Bool) (fuel : Nat) :
    (∀ response : GetObjectResponse,
      get_object base_url request_body headerses transports decode pol fuel =
        Except.ok response → response.value.isSome) ∧
    (∀ (i status_code : Nat) (payload : List Nat) (hs : List (String × String))
      (response : GetObjectResponse),
      headerses i = Except.ok hs →
      transports i (operation_attempt_request Operation.get base_url request_body hs i) =
        Except.ok (status_code, payload) →
      200 ≤ status_code → status_code < 300 →
      decode payload = Except.ok response →
      response.value = none →
      get_object_attempt base_url request_body (headerses i) (transports i) decode =
        Except.error (VssError.InternalServerError protocolViolationMsg)) ∧
    (∀ e : VssError,
      get_object base_url request_body headerses transports decode pol fuel =
        Except.error e →
      ∃ i, get_object_attempt base_url request_body (headerses i) (transports i) decode =
        Except.error e) := by
  refine ⟨?_, ?_, ?_⟩
  · intro response h
    obtain ⟨j, hj⟩ := retry_ok_from_attempt
      (fun i => get_object_attempt base_url request_body (headerses i) (transports i) decode)
      pol fuel 0 response h
    exact get_object_attempt_ok_value_isSome base_url request_body (headerses j)
      (transports j) decode response hj
  · intro i status_code payload hs response hh ht h200 h300 hdec hnone
    have ht' : transports i (post_request_build (base_url ++ "/getObject") request_body hs true) =
        Except.ok (status_code, payload) := ht
    simp [get_object_attempt, post_request, hh, ht', h200, h300, hdec, hnone, Except.bind]
  · intro e h
    exact retry_error_from_attempt
      (fun i => get_object_attempt base_url request_body (headerses i) (transports i) decode)
      pol fuel 0 e h

/-- Closed instance of `C1`: on a transport answering 200 with a
value-less body at attempt 0, the get attempt yields exactly the
protocol-violation error. -/
theorem C1_witness :
    get_object_attempt "http://s" [7] (sampleHeaderses 0) (sampleTransports 0) sampleDecode =
      Except.error (VssError.InternalServerError protocolViolationMsg) :=
  (C1_get_missing_value_never_success "http://s" [7] sampleHeaderses sampleTransports
      sampleDecode neverRetryPol 0).2.1
    0 200 [0] [("x-test", "1")] ⟨none⟩ rfl rfl (by decide) (by decide) rfl rfl

/-- C2: the transport pipelining/idempotency hint of the request an
operation's attempt hands to the transport is a fixed function of the
operation type alone — true for get, delete and list, false for put —
independent of the attempt number, the per-attempt provider headers and
the body, so no amount of retrying changes it. -/
theorem C2_pipelining_hint_fixed (op : Operation) (base_url : String)
    (request_body : List Nat) (headers : List (String × String)) (i : Nat) :
    (operation_attempt_request op base_url request_body headers i).pipelining =
      spec_pipelining_hint op ∧
    spec_pipelining_hint Operation.get = true ∧
    spec_pipelining_hint Operation.put = false ∧
    spec_pipelining_hint Operation.delete = true ∧
    spec_pipelining_hint Operation.list = true := by
  refine ⟨?_, rfl, rfl, rfl, rfl⟩
  cases op <;> rfl

/-- C8: every attempt of every operation issues a POST to the
operation's fixed path appended to the base URL, with the
`content-type: application/octet-stream` header, a 10-second timeout and
a maximum accepted response body size of 1 GiB. -/
theorem C8_wire_request_shape (op : Operation) (base_url : String)
    (request_body : List Nat) (headers : List (String × String)) (i : Nat) :
    (operation_attempt_request op base_url request_body headers i).method =
      HttpMethod.POST ∧
    (operation_attempt_request op base_url request_body headers i).url =
      base_url ++ spec_operation_path op ∧
    (CONTENT_TYPE, APPLICATION_OCTET_STREAM) ∈
      (operation_attempt_request op base_url request_body headers i).headers ∧
    (operation_attempt_request op base_url request_body headers i).timeoutSecs =
      some 10 ∧
    (operation_attempt_request op base_url request_body headers i).maxBodySize =
      some (1024 * 1024 * 1024) ∧
    (operation_attempt_request op base_url request_body headers i).body =
      request_body := by
  cases op <;>
    simp [operation_attempt_request, post_request_build, bitreqPost, operation_url,
      spec_operation_path, operation_enable_pipelining, HttpRequest.with_header,
      HttpRequest.with_headers, HttpRequest.with_body, HttpRequest.with_timeout,
      HttpRequest.with_max_body_size, HttpRequest.with_pipelining,
      DEFAULT_TIMEOUT_SECS, MAX_RESPONSE_BODY_SIZE]

/-- C4: for every attempt, once the transport answers, a status code in
[200, 300) leads to decoding the body into the typed response (a decode
failure yielding the decode error), and any status outside [200, 300)
yields the status-coded application error carrying that status code and
the raw payload verbatim. -/
theorem C4_status_classification {Rs : Type} (request_body : List Nat)
    (hs : List (String × String))
    (transport : HttpRequest → Except String (Nat × List Nat))
    (decode : List Nat → Except String Rs) (url : String) (enable_pipelining : Bool)
    (status_code : Nat) (payload : List Nat)
    (ht : transport (post_request_build url request_body hs enable_pipelining) =
      Except.ok (status_code, payload)) :
    (200 ≤ status_code → status_code < 300 →
      post_request request_body (Except.ok hs) transport decode url enable_pipelining =
        (match decode payload with
          | Except.ok response => Except.ok response
          | Except.error e => Except.error (VssError.DecodeError e))) ∧
    (¬(200 ≤ status_code ∧ status_code < 300) →
      post_request request_body (Except.ok hs) transport decode url enable_pipelining =
        Except.error (VssError.AppError status_code payload)) := by
  constructor
  · intro h200 h300
    simp [post_request, ht, h200, h300]
  · intro hout
    simp [post_request, ht, hout, VssError.new]

/-- Closed instance of `C4`: a 404 with payload `[9]` surfaces as the
application error carrying exactly status 404 and payload `[9]`. -/
theorem C4_witness :
    post_request [7] (Except.ok [("x-test", "1")])
        (fun _ => Except.ok (404, [9])) sampleDecode "http://s/getObject" true =
      Except.error (VssError.AppError 404 [9]) :=
  (C4_status_classification [7] [("x-test", "1")] (fun _ => Except.ok (404, [9]))
      sampleDecode "http://s/getObject" true 404 [9] rfl).2 (by decide)

/-- C3 (amended): whether the protocol-violation error ends the call is
the injected retry policy's decision, like every other error: whenever
the policy classifies it as terminal, the first attempt that produces it
is the last — the call returns that error after exactly one attempt. -/
theorem C3_protocol_violation_terminal_when_policy_rejects (base_url : String)
    (request_body : List Nat)
    (headerses : Nat → Except String (List (String × String)))
    (transports : Nat → HttpRequest → Except String (Nat × List Nat))
    (decode : List Nat → Except String GetObjectResponse)
    (pol : VssError → Nat → Bool) (fuel : Nat)
    (hfirst : get_object_attempt base_url request_body (headerses 0) (transports 0) decode =
      Except.error (VssError.InternalServerError protocolViolationMsg))
    (hpol : pol (VssError.InternalServerError protocolViolationMsg) 0 = false) :
    get_object base_url request_body headerses transports decode pol fuel =
      Except.error (VssError.InternalServerError protocolViolationMsg) ∧
    get_object_attempts_made base_url request_body headerses transports decode pol fuel =
      1 := by
  cases fuel with
  | zero =>
    constructor <;>
      simp [get_object, retry, get_object_attempts_made, retryAttempts, retryAux, hfirst]
  | succ f =>
    constructor <;>
      simp [get_object, retry, get_object_attempts_made, retryAttempts, retryAux, hfirst, hpol]

/-- Closed instance of `C3`'s amended statement: under a policy that
classifies every error as terminal, the value-less 200 at attempt 0 ends
the call with the protocol-violation error after exactly one attempt. -/
theorem C3_witness :
    get_object "http://s" [7] sampleHeaderses sampleTransports sampleDecode neverRetryPol 3 =
      Except.error (VssError.InternalServerError protocolViolationMsg) ∧
    get_object_attempts_made "http://s" [7] sampleHeaderses sampleTransports sampleDecode
      neverRetryPol 3 = 1 :=
  C3_protocol_violation_terminal_when_policy_rejects "http://s" [7] sampleHeaderses
    sampleTransports sampleDecode neverRetryPol 3 rfl rfl

/-- Refutation of C3 as stated: the retry loop consults the policy on
*every* error (spec §4.4 delegates classification wholesale), so under a
policy that classifies every error as retryable, the protocol-violation
error produced at attempt 0 is followed by a second attempt — the call
even ends in success. "No further retry attempt is made, for every
retry policy" is therefore false. -/
theorem C3_counterexample :
    get_object_attempt "http://s" [7] (sampleHeaderses 0) (sampleTransports 0) sampleDecode =
      Except.error (VssError.InternalServerError protocolViolationMsg) ∧
    get_object_attempts_made "http://s" [7] sampleHeaderses sampleTransports sampleDecode
      alwaysRetryPol 3 = 2 ∧
    get_object "http://s" [7] sampleHeaderses sampleTransports sampleDecode alwaysRetryPol 3 =
      Except.ok ⟨some sampleKV⟩ := by
  exact ⟨rfl, rfl, rfl⟩

/-- C5: the digest `build_token` signs is SHA-256 of the concatenation,
in order, of the fixed 64-byte salt constant, the 33-byte compressed
public key, and the decimal ASCII digits of the timestamp, and the
emitted token is hex(public key) ++ hex(compact signature) ++ decimal
timestamp digits with no separators. -/
theorem C5_token_format {SK : Type} (C : Crypto SK) (secret_key : SK) (now : Nat)
    (hpk : (C.publicKeySer secret_key).length = 33) (hnow : now < 2 ^ 64) :
    SIGNING_CONSTANT.length = 64 ∧
    build_token C secret_key now =
      Except.ok (hexBytes (C.publicKeySer secret_key) ++
        hexBytes (C.sign_ecdsa
          (C.sha256 (SIGNING_CONSTANT ++ C.publicKeySer secret_key ++ decBytes now))
          secret_key) ++
        decChars now) :=
  ⟨SIGNING_CONSTANT_length, build_token_eq C secret_key now hpk hnow⟩

/-- Closed instance of `C5` on the degenerate crypto primitives at
timestamp 5. -/
theorem C5_witness :
    (toyCrypto.publicKeySer 0).length = 33 ∧ 5 < 2 ^ 64 ∧
    (SIGNING_CONSTANT.length = 64 ∧
      build_token toyCrypto 0 5 =
        Except.ok (hexBytes (toyCrypto.publicKeySer 0) ++
          hexBytes (toyCrypto.sign_ecdsa
            (toyCrypto.sha256 (SIGNING_CONSTANT ++ toyCrypto.publicKeySer 0 ++ decBytes 5))
            0) ++
          decChars 5)) :=
  ⟨by decide, by decide, C5_token_format toyCrypto 0 5 (by decide) (by decide)⟩

/-- C6: the header map `get_headers` returns is the default map with
`"Authorization"` bound to the freshly built token — the computed value
wins when a default entry collides, and every other default entry is
unchanged. -/
theorem C6_headers_merge {SK : Type} (C : Crypto SK) (secret_key : SK)
    (default_headers : List (String × String)) (now : Nat)
    (hpk : (C.publicKeySer secret_key).length = 33) (hnow : now < 2 ^ 64) :
    ∃ token : List Char,
      build_token C secret_key now = Except.ok token ∧
      get_headers C secret_key default_headers (some now) =
        Except.ok (Except.ok
          (hashMapInsert default_headers "Authorization" (String.mk token))) ∧
      (hashMapInsert default_headers "Authorization" (String.mk token)).lookup
          "Authorization" = some (String.mk token) ∧
      (∀ k, k ≠ "Authorization" →
        (hashMapInsert default_headers "Authorization" (String.mk token)).lookup k =
          default_headers.lookup k) := by
  refine ⟨_, build_token_eq C secret_key now hpk hnow, ?_, ?_, ?_⟩
  · simp [get_headers, build_token_eq C secret_key now hpk hnow]
  · exact hashMapInsert_lookup_self _ _ _
  · intro k hk
    exact hashMapInsert_lookup_other _ _ _ _ hk

/-- Closed instance of `C6` with a colliding default `Authorization`
entry and one unrelated default entry. -/
theorem C6_witness :
    (toyCrypto.publicKeySer 0).length = 33 ∧ 5 < 2 ^ 64 ∧
    (∃ token : List Char,
      build_token toyCrypto 0 5 = Except.ok token ∧
      get_headers toyCrypto 0 [("Authorization", "stale"), ("x-a", "b")] (some 5) =
        Except.ok (Except.ok
          (hashMapInsert [("Authorization", "stale"), ("x-a", "b")] "Authorization"
            (String.mk token))) ∧
      (hashMapInsert [("Authorization", "stale"), ("x-a", "b")] "Authorization"
          (String.mk token)).lookup "Authorization" = some (String.mk token) ∧
      (∀ k, k ≠ "Authorization" →
        (hashMapInsert [("Authorization", "stale"), ("x-a", "b")] "Authorization"
            (String.mk token)).lookup k =
          [("Authorization", "stale"), ("x-a", "b")].lookup k)) :=
  ⟨by decide, by decide,
    C6_headers_merge toyCrypto 0 [("Authorization", "stale"), ("x-a", "b")] 5
      (by decide) (by decide)⟩

/-- C7: with a clock at or after the Unix epoch (a `u64` seconds value)
and a valid key, `get_headers` always returns `Ok` — the inner error
branch is unreachable; a clock before the epoch is the only failure
surface and panics (the outer error) rather than returning an error. -/
theorem C7_clock_only_failure {SK : Type} (C : Crypto SK) (secret_key : SK)
    (default_headers : List (String × String)) (clock : Option Nat)
    (hpk : (C.publicKeySer secret_key).length = 33) :
    (∀ now, clock = some now → now < 2 ^ 64 →
      ∃ hs, get_headers C secret_key default_headers clock =
        Except.ok (Except.ok hs)) ∧
    (clock = none →
      get_headers C secret_key default_headers clock =
        Except.error "System time must be at least Jan 1, 1970") := by
  constructor
  · intro now hc hnow
    subst hc
    exact ⟨hashMapInsert default_headers "Authorization"
        (String.mk (hexBytes (C.publicKeySer secret_key) ++
          hexBytes (C.sign_ecdsa
            (C.sha256 (SIGNING_CONSTANT ++ C.publicKeySer secret_key ++ decBytes now))
            secret_key) ++
          decChars now)),
      by simp [get_headers, build_token_eq C secret_key now hpk hnow]⟩
  · intro hc
    subst hc
    rfl

/-- Closed instance of `C7`: success at clock 5, panic before the
epoch. -/
theorem C7_witness :
    (∃ hs, get_headers toyCrypto 0 [] (some 5) = Except.ok (Except.ok hs)) ∧
    get_headers toyCrypto 0 [] none =
      Except.error "System time must be at least Jan 1, 1970" :=
  ⟨(C7_clock_only_failure toyCrypto 0 [] (some 5) (by decide)).1 5 rfl (by decide),
    (C7_clock_only_failure toyCrypto 0 [] none (by decide)).2 rfl⟩

/-- C9: two tokens built for the same key begin with the identical
66-character hex encoding of the same derived public key, differ only in
their signature hex and decimal timestamp suffix, and each embedded
signature verifies against that public key over its own timestamp's
digest (given a correct signature scheme). -/
theorem C9_token_pair_same_key {SK : Type} (C : Crypto SK) (secret_key : SK)
    (t1 t2 : Nat) (hpk : (C.publicKeySer secret_key).length = 33)
    (hver : ∀ digest,
      C.verify_ecdsa (C.publicKeySer secret_key) digest
        (C.sign_ecdsa digest secret_key) = true)
    (h1 : t1 < 2 ^ 64) (h2 : t2 < 2 ^ 64) :
    ∃ tok1 tok2 : List Char,
      build_token C secret_key t1 = Except.ok tok1 ∧
      build_token C secret_key t2 = Except.ok tok2 ∧
      tok1.take 66 = hexBytes (C.publicKeySer secret_key) ∧
      tok2.take 66 = hexBytes (C.publicKeySer secret_key) ∧
      tok1 = hexBytes (C.publicKeySer secret_key) ++
        hexBytes (C.sign_ecdsa (signed_digest C secret_key t1) secret_key) ++
        decChars t1 ∧
      tok2 = hexBytes (C.publicKeySer secret_key) ++
        hexBytes (C.sign_ecdsa (signed_digest C secret_key t2) secret_key) ++
        decChars t2 ∧
      C.verify_ecdsa (C.publicKeySer secret_key) (signed_digest C secret_key t1)
        (C.sign_ecdsa (signed_digest C secret_key t1) secret_key) = true ∧
      C.verify_ecdsa (C.publicKeySer secret_key) (signed_digest C secret_key t2)
        (C.sign_ecdsa (signed_digest C secret_key t2) secret_key) = true := by
  have hlen : (hexBytes (C.publicKeySer secret_key)).length = 66 := by
    rw [hexBytes_length, hpk]
  refine ⟨_, _, build_token_eq C secret_key t1 hpk h1,
    build_token_eq C secret_key t2 hpk h2, ?_, ?_, rfl, rfl, hver _, hver _⟩
  · rw [List.append_assoc]
    exact List.take_left' hlen
  · rw [List.append_assoc]
    exact List.take_left' hlen

/-- Closed instance of `C9` at timestamps 5 and 6 on the degenerate
crypto primitives. -/
theorem C9_witness :
    (toyCrypto.publicKeySer 0).length = 33 ∧ 5 < 2 ^ 64 ∧ 6 < 2 ^ 64 ∧
    (∃ tok1 tok2 : List Char,
      build_token toyCrypto 0 5 = Except.ok tok1 ∧
      build_token toyCrypto 0 6 = Except.ok tok2 ∧
      tok1.take 66 = hexBytes (toyCrypto.publicKeySer 0) ∧
      tok2.take 66 = hexBytes (toyCrypto.publicKeySer 0) ∧
      tok1 = hexBytes (toyCrypto.publicKeySer 0) ++
        hexBytes (toyCrypto.sign_ecdsa (signed_digest toyCrypto 0 5) 0) ++
        decChars 5 ∧
      tok2 = hexBytes (toyCrypto.publicKeySer 0) ++
        hexBytes (toyCrypto.sign_ecdsa (signed_digest toyCrypto 0 6) 0) ++
        decChars 6 ∧
      toyCrypto.verify_ecdsa (toyCrypto.publicKeySer 0) (signed_digest toyCrypto 0 5)
        (toyCrypto.sign_ecdsa (signed_digest toyCrypto 0 5) 0) = true ∧
      toyCrypto.verify_ecdsa (toyCrypto.publicKeySer 0) (signed_digest toyCrypto 0 6)
        (toyCrypto.sign_ecdsa (signed_digest toyCrypto 0 6) 0) = true) :=
  ⟨by decide, by decide, by decide,
    C9_token_pair_same_key toyCrypto 0 5 6 (by decide) (fun _ => rfl)
      (by decide) (by decide)⟩

/-- C10: the three sequential writes into the fixed
`SIGNING_CONSTANT.len() + 33 + 20`-byte buffer of `build_token` always
fit — 64 salt bytes, a 33-byte public key, and at most 20 decimal digits
of a `u64` — so none of the write `.unwrap()` calls can panic and the
token is always produced. -/
theorem C10_buffer_writes_fit {SK : Type} (C : Crypto SK) (secret_key : SK) (now : Nat)
    (hpk : (C.publicKeySer secret_key).length = 33) (hnow : now < 2 ^ 64) :
    SIGNING_CONSTANT.length + (C.publicKeySer secret_key).length +
        (decBytes now).length ≤ SIGNING_CONSTANT.length + 33 + 20 ∧
    ∃ token, build_token C secret_key now = Except.ok token := by
  have hd : (decBytes now).length ≤ 20 := decBytes_length_le now hnow
  constructor
  · rw [hpk]
    omega
  · exact ⟨_, build_token_eq C secret_key now hpk hnow⟩

/-- Closed instance of `C10` at the largest `u64` timestamp (20 decimal
digits). -/
theorem C10_witness :
    (toyCrypto.publicKeySer 0).length = 33 ∧ 18446744073709551615 < 2 ^ 64 ∧
    (SIGNING_CONSTANT.length + (toyCrypto.publicKeySer 0).length +
        (decBytes 18446744073709551615).length ≤ SIGNING_CONSTANT.length + 33 + 20 ∧
      ∃ token, build_token toyCrypto 0 18446744073709551615 = Except.ok token) :=
  ⟨by decide, by decide,
    C10_buffer_writes_fit toyCrypto 0 18446744073709551615 (by decide) (by decide)⟩

end VssClientModel
